import Mathlib

/-!
Shallow embedding of the population-genetics simulation driver
(`src/pop_gen.py`, class `PopGen`).  Only `pop_gen.py` is part of the
given source tree; the transform modules it imports (`calc_N`,
`calc_next_N`, `adj_by_fitness`, `adj_by_drift`, `adj_by_mutation`,
`calc_next_genotypes_data`) are external to it, so the driver is embedded
parametrically over any family of transforms with the interfaces the spec
describes.  Genotype data is an abstract type `G`; the unset Python value
`None` is modelled by `Option G`; rates are rationals, sizes and years are
integers.
-/

namespace PopGenSim

/-- Exceptions the driver can raise, mirroring the Python ones:
`missingDataError` is the ValueError raised by `run` when genotype data is
unset; `invalidDataError` is the failure of `computeCurrentSize` on
non-numeric input; `typeError` is the Python 3 TypeError raised by comparing
an int with None; `zeroDivisionError` is raised by dividing by a zero next
size. -/
inductive PGError where
  | missingDataError
  | invalidDataError
  | typeError
  | zeroDivisionError
  deriving DecidableEq, Repr

/-- Modelled from the spec: the modules imported by `pop_gen.py`
(`calc_N`, `calc_next_N`, `adj_by_fitness`, `adj_by_drift`,
`adj_by_mutation`, `calc_next_genotypes_data`) are not under the given
source tree.  Their signatures follow spec sections 4.1 to 4.5, and the
driver theorems below hold for every such family of transforms. -/
structure Env (G : Type) where
  calc_N : G → ℤ
  calc_next_N : ℤ → ℚ → Option ℤ → ℤ
  adj_by_fitness : G → G
  adj_by_drift : G → ℚ → ℤ → Option ℤ → G
  adj_by_mutation : G → Option ℚ → G
  calc_next_genotypes_data : G → ℤ → G

/-- The mutable fields of a `PopGen` instance (`pop_gen.py`, `__init__`). -/
structure PopGenState (G : Type) where
  growth_rate : ℚ
  carrying_capacity : Option ℤ
  max_drift : ℚ
  mutation_rate : Option ℚ
  genotype_data : Option G
  gens_genotype_data : List (Option G)
  deriving DecidableEq, Repr

/-- Modelled from the spec: `computeCurrentSize` fails with
`InvalidDataError` when its argument's counts are non-numeric; the unset
value `None`, which `calc_generation` passes along when called on an
uninitialized instance, is such an input.  The `calc_N` module itself is
not under the given source tree. -/
def calc_N_none_error : PGError := PGError.invalidDataError

variable {G : Type}

/-- Shallow embedding of `PopGen.calc_generation` (`pop_gen.py`
lines 64-86).  The result is the post-call instance state paired with the
raised exception, if any; the state is produced even on error because the
Python method mutates the instance (the history append on line 70) before
any point at which it can fail. -/
def calc_generation (env : Env G) (s : PopGenState G) (i : ℤ)
    (bottleneck_yr : Option ℤ) (bottleneck_N : Option ℤ) :
    PopGenState G × Option PGError :=
  let s1 : PopGenState G :=
    { s with gens_genotype_data := s.gens_genotype_data ++ [s.genotype_data] }
  match s.genotype_data with
  | none => (s1, some calc_N_none_error)
  | some curr0 =>
    let next_N := env.calc_next_N (env.calc_N curr0) s.growth_rate s.carrying_capacity
    let curr1 := env.adj_by_fitness curr0
    let curr2 := env.adj_by_drift curr1 s.max_drift (env.calc_N curr1) s.carrying_capacity
    let branch : Except PGError (G × ℤ) :=
      if bottleneck_yr = some i then
        match bottleneck_N with
        | none => Except.error PGError.typeError
        | some bn =>
          if bn < next_N then
            if next_N = 0 then Except.error PGError.zeroDivisionError
            else Except.ok
              (env.adj_by_drift curr2 (1 - (bn : ℚ) / (next_N : ℚ)) bn s.carrying_capacity, bn)
          else Except.ok (curr2, next_N)
      else Except.ok (curr2, next_N)
    match branch with
    | Except.error e => (s1, some e)
    | Except.ok (curr3, nN) =>
      let nextData := env.adj_by_mutation (env.calc_next_genotypes_data curr3 nN) s.mutation_rate
      ({ s1 with genotype_data := some nextData }, none)

/-- The loop body of `PopGen.run` (`pop_gen.py` lines 59-60): apply
`calc_generation` for indices `i, i+1, ..., i+n-1`, stopping at (and
propagating) the first exception together with the state it left behind. -/
def runFrom (env : Env G) (s : PopGenState G) (i : ℤ) (n : ℕ)
    (bottleneck_yr : Option ℤ) (bottleneck_N : Option ℤ) :
    PopGenState G × Option PGError :=
  match n with
  | 0 => (s, none)
  | Nat.succ m =>
    match calc_generation env s i bottleneck_yr bottleneck_N with
    | (s1, none) => runFrom env s1 (i + 1) m bottleneck_yr bottleneck_N
    | (s1, some e) => (s1, some e)

/-- Shallow embedding of `PopGen.run` (`pop_gen.py` lines 51-62): guard on
unset genotype data, loop over `range(generations)`, and return the
accumulated history on success. -/
def run (env : Env G) (s : PopGenState G) (generations : ℕ)
    (bottleneck_yr : Option ℤ) (bottleneck_N : Option ℤ) :
    PopGenState G × Except PGError (List (Option G)) :=
  match s.genotype_data with
  | none => (s, Except.error PGError.missingDataError)
  | some _ =>
    match runFrom env s 0 generations bottleneck_yr bottleneck_N with
    | (s1, none) => (s1, Except.ok s1.gens_genotype_data)
    | (s1, some e) => (s1, Except.error e)

/-- The natural next population size of a generation entered with data
`c0`: `calc_next_N` applied to the pre-transform current size
(`pop_gen.py` line 73). -/
def natNextN (env : Env G) (s : PopGenState G) (c0 : G) : ℤ :=
  env.calc_next_N (env.calc_N c0) s.growth_rate s.carrying_capacity

/-- The genotype data after the fitness and ordinary drift adjustments
(`pop_gen.py` lines 76-77): drift receives `max_drift` and the size
recomputed from the post-fitness data. -/
def postDrift (env : Env G) (s : PopGenState G) (c0 : G) : G :=
  let c1 := env.adj_by_fitness c0
  env.adj_by_drift c1 s.max_drift (env.calc_N c1) s.carrying_capacity

/-- The data of the next generation when no bottleneck override fires:
synthesize at the natural next size, then mutate (`pop_gen.py`
lines 85-86). -/
def stepData (env : Env G) (s : PopGenState G) (c0 : G) : G :=
  env.adj_by_mutation
    (env.calc_next_genotypes_data (postDrift env s c0) (natNextN env s c0))
    s.mutation_rate

/-- The instance state after k error-free generations run with no
bottleneck arguments.  The generation index passed to each step does not
matter when no bottleneck year is given, so it is fixed to 0 here. -/
def iterGen (env : Env G) (s : PopGenState G) : ℕ → PopGenState G
  | 0 => s
  | Nat.succ k => (calc_generation env (iterGen env s k) 0 none none).1

/-- The per-generation pipeline written as the explicitly ordered chain of
the spec's step list (spec section 4.6, transition 2, steps a-g): append
the snapshot, compute the next target size from the pre-transform size,
apply fitness, apply drift with the size recomputed from the post-fitness
data, conditionally apply the bottleneck override, synthesize the next
generation at the target size, and finally apply mutation, whose result
becomes the new current genotype data. -/
def specPipeline (env : Env G) (s : PopGenState G) (c0 : G) (i : ℤ)
    (byr bN : Option ℤ) : PopGenState G × Option PGError :=
  -- step 1 (spec a): append the snapshot of the state entering generation i
  let hist1 := s.gens_genotype_data ++ [some c0]
  -- step 2 (spec b): target size from the pre-transform current size
  let nextN := env.calc_next_N (env.calc_N c0) s.growth_rate s.carrying_capacity
  -- step 3 (spec c): fitness adjustment
  let d3 := env.adj_by_fitness c0
  -- step 4 (spec d): drift adjustment, N recomputed from post-fitness data
  let d4 := env.adj_by_drift d3 s.max_drift (env.calc_N d3) s.carrying_capacity
  -- step 5 (spec e): conditional bottleneck override
  let over : Except PGError (G × ℤ) :=
    if byr = some i then
      match bN with
      | none => Except.error PGError.typeError
      | some bn =>
        if bn < nextN then
          if nextN = 0 then Except.error PGError.zeroDivisionError
          else Except.ok
            (env.adj_by_drift d4 (1 - (bn : ℚ) / (nextN : ℚ)) bn s.carrying_capacity, bn)
        else Except.ok (d4, nextN)
    else Except.ok (d4, nextN)
  match over with
  | Except.error e => ({ s with gens_genotype_data := hist1 }, some e)
  | Except.ok (d5, targetN) =>
    -- step 6 (spec f): synthesize the next generation at the target size
    let d6 := env.calc_next_genotypes_data d5 targetN
    -- step 7 (spec g): mutation adjustment; result becomes the current data
    let d7 := env.adj_by_mutation d6 s.mutation_rate
    ({ s with genotype_data := some d7, gens_genotype_data := hist1 }, none)

/-- A concrete transform family over integer genotype data, used to
instantiate the driver theorems on computable inputs. -/
def cEnv : Env ℤ where
  calc_N := fun g => g
  calc_next_N := fun n _ _ => n
  adj_by_fitness := fun g => g
  adj_by_drift := fun g _ _ _ => g
  adj_by_mutation := fun g _ => g + 1
  calc_next_genotypes_data := fun g n => g + n

/-- A concrete Ready instance: genotype data 5, empty history, default
parameters. -/
def cState : PopGenState ℤ := ⟨0, none, 0, none, some 5, []⟩

/-- A concrete Uninitialized instance: no genotype data set. -/
def cStateU : PopGenState ℤ := ⟨0, none, 0, none, none, []⟩

theorem calc_generation_unset (env : Env G) (s : PopGenState G)
    (hd : s.genotype_data = none) (i : ℤ) (byr bN : Option ℤ) :
    calc_generation env s i byr bN =
      ({ s with gens_genotype_data := s.gens_genotype_data ++ [none] },
        some PGError.invalidDataError) := by
  obtain ⟨gr, cc, md, mr, gd, hist⟩ := s
  cases hd
  rfl

theorem calc_generation_no_bottleneck (env : Env G) (s : PopGenState G) (c0 : G)
    (hd : s.genotype_data = some c0) (i : ℤ) :
    calc_generation env s i none none =
      ({ s with gens_genotype_data := s.gens_genotype_data ++ [some c0],
                genotype_data := some (stepData env s c0) }, none) := by
  obtain ⟨gr, cc, md, mr, gd, hist⟩ := s
  cases hd
  rfl

theorem calc_generation_miss (env : Env G) (s : PopGenState G) (i : ℤ)
    (byr bN : Option ℤ) (hmiss : byr ≠ some i) :
    calc_generation env s i byr bN = calc_generation env s i none none := by
  obtain ⟨gr, cc, md, mr, gd, hist⟩ := s
  cases gd with
  | none => rfl
  | some c0 =>
    simp only [calc_generation]
    rw [if_neg hmiss]
    rfl

theorem calc_generation_hit (env : Env G) (s : PopGenState G) (c0 : G) (i bn : ℤ)
    (hd : s.genotype_data = some c0) (hlt : bn < natNextN env s c0)
    (hne : natNextN env s c0 ≠ 0) :
    calc_generation env s i (some i) (some bn) =
      ({ s with gens_genotype_data := s.gens_genotype_data ++ [some c0],
                genotype_data := some (env.adj_by_mutation
                  (env.calc_next_genotypes_data
                    (env.adj_by_drift (postDrift env s c0)
                      (1 - (bn : ℚ) / (natNextN env s c0 : ℚ)) bn s.carrying_capacity)
                    bn)
                  s.mutation_rate) }, none) := by
  obtain ⟨gr, cc, md, mr, gd, hist⟩ := s
  cases hd
  simp only [natNextN, postDrift] at hlt hne ⊢
  simp [calc_generation, hlt, hne]

theorem calc_generation_big (env : Env G) (s : PopGenState G) (c0 : G) (i bn : ℤ)
    (hd : s.genotype_data = some c0) (hge : natNextN env s c0 ≤ bn) :
    calc_generation env s i (some i) (some bn) = calc_generation env s i none none := by
  obtain ⟨gr, cc, md, mr, gd, hist⟩ := s
  cases hd
  simp only [natNextN] at hge
  simp [calc_generation, not_lt.mpr hge]

theorem calc_generation_append (env : Env G) (s : PopGenState G) (i : ℤ)
    (byr bN : Option ℤ) :
    ((calc_generation env s i byr bN).1).gens_genotype_data =
      s.gens_genotype_data ++ [s.genotype_data] := by
  obtain ⟨gr, cc, md, mr, gd, hist⟩ := s
  cases gd with
  | none => rfl
  | some c0 =>
    simp only [calc_generation]
    split <;> rfl

theorem calc_generation_idx_irrel (env : Env G) (s : PopGenState G) (i j : ℤ)
    (bN bM : Option ℤ) :
    calc_generation env s i none bN = calc_generation env s j none bM := by
  obtain ⟨gr, cc, md, mr, gd, hist⟩ := s
  cases gd <;> rfl

theorem iterGen_shift (env : Env G) (s : PopGenState G) (n : ℕ) :
    iterGen env ((calc_generation env s 0 none none).1) n = iterGen env s (n + 1) := by
  induction n with
  | zero => rfl
  | succ m ih => simp only [iterGen, ih]

theorem iterGen_some (env : Env G) (s : PopGenState G) (d0 : G)
    (hd : s.genotype_data = some d0) (n : ℕ) :
    ∃ d, (iterGen env s n).genotype_data = some d := by
  induction n with
  | zero => exact ⟨d0, hd⟩
  | succ m ih =>
    obtain ⟨d, hdm⟩ := ih
    refine ⟨stepData env (iterGen env s m) d, ?_⟩
    simp only [iterGen]
    rw [calc_generation_no_bottleneck env (iterGen env s m) d hdm]

theorem iterGen_hist (env : Env G) (s : PopGenState G) (n : ℕ) :
    (iterGen env s n).gens_genotype_data =
      s.gens_genotype_data ++
        (List.range n).map (fun k => (iterGen env s k).genotype_data) := by
  induction n with
  | zero => simp [iterGen]
  | succ m ih =>
    simp only [iterGen]
    rw [calc_generation_append, ih, List.range_succ]
    simp [List.map_append, List.append_assoc]

theorem runFrom_eq_iterGen (env : Env G) :
    ∀ (n : ℕ) (s : PopGenState G) (d0 : G) (i : ℤ),
      s.genotype_data = some d0 →
      runFrom env s i n none none = (iterGen env s n, none) := by
  intro n
  induction n with
  | zero => intro s d0 i hd; rfl
  | succ m ih =>
    intro s d0 i hd
    have hcg : calc_generation env s i none none =
        ((calc_generation env s 0 none none).1, none) := by
      rw [calc_generation_idx_irrel env s i 0 none none,
        calc_generation_no_bottleneck env s d0 hd 0]
    have hs1 : ((calc_generation env s 0 none none).1).genotype_data =
        some (stepData env s d0) := by
      rw [calc_generation_no_bottleneck env s d0 hd 0]
    simp only [runFrom, hcg]
    rw [ih ((calc_generation env s 0 none none).1) (stepData env s d0) (i + 1) hs1,
      iterGen_shift]

theorem run_ok (env : Env G) (s : PopGenState G) (d0 : G) (g : ℕ)
    (hd : s.genotype_data = some d0) :
    run env s g none none =
      (iterGen env s g, Except.ok ((iterGen env s g).gens_genotype_data)) := by
  obtain ⟨gr, cc, md, mr, gd, hist⟩ := s
  cases hd
  simp only [run]
  rw [runFrom_eq_iterGen env g _ d0 0 rfl]

theorem runFrom_outside (env : Env G) (byr bN : Option ℤ) :
    ∀ (n : ℕ) (s : PopGenState G) (i : ℤ),
      (∀ j : ℤ, i ≤ j → j < i + (n : ℤ) → byr ≠ some j) →
      runFrom env s i n byr bN = runFrom env s i n none none := by
  intro n
  induction n with
  | zero => intro s i h; rfl
  | succ m ih =>
    intro s i h
    have h0 : byr ≠ some i := h i le_rfl (by omega)
    simp only [runFrom]
    rw [calc_generation_miss env s i byr bN h0]
    rcases hcg : calc_generation env s i none none with ⟨s1, e⟩
    cases e with
    | none =>
      exact ih s1 (i + 1) (fun j hj1 hj2 => h j (by omega) (by omega))
    | some e => rfl

/-- C1: for every Ready instance and generation index, calc_generation
performs its steps in exactly this order: (1) append the current genotype
data to history, (2) compute the next target size from the current
pre-transform population size, (3) apply the fitness adjustment, (4) apply
the drift adjustment with max_drift and with N recomputed from the
post-fitness data, (5) conditionally apply the bottleneck override,
(6) synthesize the next generation at the target size, (7) apply the
mutation adjustment, whose result becomes the new current genotype data:
the source embedding coincides with the explicitly ordered step pipeline
of the spec. -/
theorem calc_generation_step_order (env : Env G) (s : PopGenState G) (c0 : G)
    (hd : s.genotype_data = some c0) (i : ℤ) (byr bN : Option ℤ) :
    calc_generation env s i byr bN = specPipeline env s c0 i byr bN := by
  obtain ⟨gr, cc, md, mr, gd, hist⟩ := s
  cases hd
  rfl

/-- Witness for C1 at a concrete environment and state. -/
theorem calc_generation_step_order_witness :
    calc_generation cEnv cState 0 none none =
      specPipeline cEnv cState 5 0 none none :=
  calc_generation_step_order cEnv cState 5 rfl 0 none none

/-- C2: for a Ready instance with bottleneckYear equal to the current
generation index and a non-negative bottleneckN: if bottleneckN is below
the natural next size, calc_generation re-applies drift with rate exactly
1 - bottleneckN/nextN and population-size argument bottleneckN, and the
target size passed to the next-generation synthesizer is exactly
bottleneckN; if bottleneckN is at least the natural next size, the
bottleneck has no effect and the call behaves exactly as one with no
bottleneck arguments, with the target size at its natural value. -/
theorem calc_generation_bottleneck_cases (env : Env G) (s : PopGenState G)
    (c0 : G) (i bn : ℤ) (hd : s.genotype_data = some c0) (hbn : 0 ≤ bn) :
    (bn < natNextN env s c0 →
      calc_generation env s i (some i) (some bn) =
        ({ s with gens_genotype_data := s.gens_genotype_data ++ [some c0],
                  genotype_data := some (env.adj_by_mutation
                    (env.calc_next_genotypes_data
                      (env.adj_by_drift (postDrift env s c0)
                        (1 - (bn : ℚ) / (natNextN env s c0 : ℚ)) bn
                        s.carrying_capacity)
                      bn)
                    s.mutation_rate) }, none)) ∧
    (natNextN env s c0 ≤ bn →
      calc_generation env s i (some i) (some bn) =
        calc_generation env s i none none) := by
  constructor
  · intro hlt
    exact calc_generation_hit env s c0 i bn hd hlt (by omega)
  · intro hge
    exact calc_generation_big env s c0 i bn hd hge

/-- Witness for C2: a genuine bottleneck (2 below the natural size 5)
forces the target size to 2, and a non-reducing bottleneck (7 at or above
5) behaves exactly as a call with no bottleneck arguments. -/
theorem calc_generation_bottleneck_cases_witness :
    calc_generation cEnv cState 0 (some 0) (some 2) =
      ((⟨0, none, 0, none, some 8, [some 5]⟩ : PopGenState ℤ), none) ∧
    calc_generation cEnv cState 0 (some 0) (some 7) =
      calc_generation cEnv cState 0 none none :=
  ⟨(calc_generation_bottleneck_cases cEnv cState 5 0 2 rfl (by decide)).1
      (by decide),
   (calc_generation_bottleneck_cases cEnv cState 5 0 7 rfl (by decide)).2
      (by decide)⟩

/-- C3: after run(g) on a fresh Ready instance the history has length
exactly g, its first entry equals the genotype data set before the call,
and entry k is the snapshot of the state entering generation k, taken
before that generation's transforms. -/
theorem run_history_shape (env : Env G) (s : PopGenState G) (d0 : G) (g : ℕ)
    (hd : s.genotype_data = some d0) (hh : s.gens_genotype_data = []) :
    ∃ sEnd : PopGenState G,
      run env s g none none = (sEnd, Except.ok sEnd.gens_genotype_data) ∧
      sEnd.gens_genotype_data.length = g ∧
      (0 < g → sEnd.gens_genotype_data[0]? = some (some d0)) ∧
      ∀ k, k < g → sEnd.gens_genotype_data[k]? =
        some ((iterGen env s k).genotype_data) := by
  have hall : ∀ k, k < g → (iterGen env s g).gens_genotype_data[k]? =
      some ((iterGen env s k).genotype_data) := by
    intro k hk
    rw [iterGen_hist, hh, List.nil_append]
    simp [List.getElem?_map, List.getElem?_range hk]
  refine ⟨iterGen env s g, run_ok env s d0 g hd, ?_, ?_, hall⟩
  · rw [iterGen_hist, hh]
    simp
  · intro hg
    rw [hall 0 hg]
    simp only [iterGen]
    rw [hd]

/-- Witness for C3 with two generations on the concrete instance. -/
theorem run_history_shape_witness :
    ∃ sEnd : PopGenState ℤ,
      run cEnv cState 2 none none = (sEnd, Except.ok sEnd.gens_genotype_data) ∧
      sEnd.gens_genotype_data.length = 2 ∧
      (0 < 2 → sEnd.gens_genotype_data[0]? = some (some 5)) ∧
      ∀ k, k < 2 → sEnd.gens_genotype_data[k]? =
        some ((iterGen cEnv cState k).genotype_data) :=
  run_history_shape cEnv cState 5 2 rfl rfl

/-- C4 (amended): invoking run while the genotype data is unset fails with
MissingDataError, leaves the instance untouched and attempts no retry;
calc_generation, however, performs no such check: it appends the unset
value to the history and only then fails inside the current-size
computation (modelled from the spec as InvalidDataError), not with
MissingDataError. -/
theorem missing_data_behavior (env : Env G) (s : PopGenState G)
    (hd : s.genotype_data = none) (g : ℕ) (i : ℤ) (byr bN : Option ℤ) :
    run env s g byr bN = (s, Except.error PGError.missingDataError) ∧
    calc_generation env s i byr bN =
      ({ s with gens_genotype_data := s.gens_genotype_data ++ [none] },
        some PGError.invalidDataError) ∧
    (calc_generation env s i byr bN).2 ≠ some PGError.missingDataError := by
  refine ⟨?_, calc_generation_unset env s hd i byr bN, ?_⟩
  · obtain ⟨gr, cc, md, mr, gd, hist⟩ := s
    cases hd
    rfl
  · rw [calc_generation_unset env s hd i byr bN]
    simp

/-- Witness for C4 (amended) on the concrete uninitialized instance. -/
theorem missing_data_behavior_witness :
    run cEnv cStateU 2 none none =
      (cStateU, Except.error PGError.missingDataError) ∧
    calc_generation cEnv cStateU 0 none none =
      ((⟨0, none, 0, none, none, [none]⟩ : PopGenState ℤ),
        some PGError.invalidDataError) ∧
    (calc_generation cEnv cStateU 0 none none).2 ≠
      some PGError.missingDataError :=
  missing_data_behavior cEnv cStateU rfl 2 0 none none

/-- C4 counterexample: calc_generation invoked on an uninitialized
instance fails, but with the current-size computation's InvalidDataError,
not with MissingDataError as the claim states. -/
theorem missing_data_counterexample :
    (calc_generation cEnv cStateU 0 none none).2 =
      some PGError.invalidDataError ∧
    some PGError.invalidDataError ≠ some PGError.missingDataError :=
  ⟨rfl, by decide⟩

/-- C5 (amended): after the mutation adjustment the result becomes the new
current genotype data, but it is appended to the history only at the start
of the next generation step, not within its own step: within a step the
history gains the snapshot of the entering state; consequently after
run(g) the last history entry is the state entering the final generation,
which in general differs from the final current genotype data. -/
theorem mutation_result_timing (env : Env G) (s : PopGenState G) (c0 : G)
    (i : ℤ) (g : ℕ) (hd : s.genotype_data = some c0)
    (hh : s.gens_genotype_data = []) (hg : 0 < g) :
    (calc_generation env s i none none).1.genotype_data =
      some (stepData env s c0) ∧
    (calc_generation env s i none none).1.gens_genotype_data =
      s.gens_genotype_data ++ [some c0] ∧
    run env s g none none =
      (iterGen env s g, Except.ok ((iterGen env s g).gens_genotype_data)) ∧
    (iterGen env s g).gens_genotype_data.getLast? =
      some ((iterGen env s (g - 1)).genotype_data) := by
  refine ⟨?_, ?_, run_ok env s c0 g hd, ?_⟩
  · rw [calc_generation_no_bottleneck env s c0 hd i]
  · rw [calc_generation_append env s i none none, hd]
  · obtain ⟨m, rfl⟩ : ∃ m, g = m + 1 :=
      ⟨g - 1, (Nat.succ_pred_eq_of_pos hg).symm⟩
    rw [iterGen_hist, hh, List.nil_append, List.range_succ, List.map_append]
    simp

/-- Witness for C5 (amended) with one generation on the concrete
instance. -/
theorem mutation_result_timing_witness :
    (calc_generation cEnv cState 0 none none).1.genotype_data =
      some (stepData cEnv cState 5) ∧
    (calc_generation cEnv cState 0 none none).1.gens_genotype_data =
      cState.gens_genotype_data ++ [some 5] ∧
    run cEnv cState 1 none none =
      (iterGen cEnv cState 1,
        Except.ok ((iterGen cEnv cState 1).gens_genotype_data)) ∧
    (iterGen cEnv cState 1).gens_genotype_data.getLast? =
      some ((iterGen cEnv cState (1 - 1)).genotype_data) :=
  mutation_result_timing cEnv cState 5 0 1 rfl rfl (by decide)

/-- C5 counterexample: after run(1) on the concrete instance the history
is [some 5] while the final current genotype data is some 11, so the
mutation result was not appended to the history within its own step and
the last history entry differs from the final current genotype data. -/
theorem mutation_result_timing_counterexample :
    (run cEnv cState 1 none none).1.gens_genotype_data = [some 5] ∧
    (run cEnv cState 1 none none).1.genotype_data = some 11 ∧
    (run cEnv cState 1 none none).1.gens_genotype_data.getLast? ≠
      some ((run cEnv cState 1 none none).1.genotype_data) :=
  ⟨rfl, rfl, by decide⟩

/-- C6 (amended): supplying bottleneckN while bottleneckYear is unset is
treated as no bottleneck this call, with the call completing and behaving
exactly as one with no bottleneck arguments; supplying bottleneckYear
while bottleneckN is unset also applies no bottleneck when the generation
index differs from bottleneckYear, but when the index equals
bottleneckYear the comparison of the natural next size against the unset
value raises a TypeError instead of completing. -/
theorem bottleneck_partial_params (env : Env G) (s : PopGenState G) (c0 : G)
    (i : ℤ) (hd : s.genotype_data = some c0) :
    (∀ bN : Option ℤ, calc_generation env s i none bN =
      calc_generation env s i none none) ∧
    (∀ y : ℤ, y ≠ i → calc_generation env s i (some y) none =
      calc_generation env s i none none) ∧
    (calc_generation env s i (some i) none).2 = some PGError.typeError := by
  refine ⟨fun bN => calc_generation_idx_irrel env s i i bN none,
    fun y hy => calc_generation_miss env s i (some y) none (by simpa using hy),
    ?_⟩
  obtain ⟨gr, cc, md, mr, gd, hist⟩ := s
  cases hd
  simp [calc_generation]

/-- Witness for C6 (amended) on the concrete instance. -/
theorem bottleneck_partial_params_witness :
    calc_generation cEnv cState 0 none (some 7) =
      calc_generation cEnv cState 0 none none ∧
    (calc_generation cEnv cState 0 (some 0) none).2 =
      some PGError.typeError :=
  ⟨(bottleneck_partial_params cEnv cState 5 0 rfl).1 (some 7),
   (bottleneck_partial_params cEnv cState 5 0 rfl).2.2⟩

/-- C6 counterexample: with bottleneckYear supplied as the current index
and bottleneckN unset, calc_generation does not complete without error. -/
theorem bottleneck_partial_params_counterexample :
    (calc_generation cEnv cState 0 (some 0) none).2 ≠ none := by
  decide

/-- C7: run returns the full accumulated history and leaves the instance
Ready (genotype data still set); a subsequent run on the same instance
succeeds and keeps accumulating: after run(g1) followed by run(g2) on an
initially fresh instance, the history has length g1 + g2 and the second
return value extends the first run's history rather than containing only
the new entries. -/
theorem run_twice_accumulates (env : Env G) (s : PopGenState G) (d0 : G)
    (g1 g2 : ℕ) (hd : s.genotype_data = some d0)
    (hh : s.gens_genotype_data = []) :
    ∃ d1 : G,
      run env s g1 none none =
        (iterGen env s g1, Except.ok ((iterGen env s g1).gens_genotype_data)) ∧
      (iterGen env s g1).genotype_data = some d1 ∧
      run env (iterGen env s g1) g2 none none =
        (iterGen env (iterGen env s g1) g2,
          Except.ok ((iterGen env (iterGen env s g1) g2).gens_genotype_data)) ∧
      (iterGen env (iterGen env s g1) g2).gens_genotype_data.length =
        g1 + g2 ∧
      ∃ tail, (iterGen env (iterGen env s g1) g2).gens_genotype_data =
        (iterGen env s g1).gens_genotype_data ++ tail := by
  obtain ⟨d1, hd1⟩ := iterGen_some env s d0 hd g1
  refine ⟨d1, run_ok env s d0 g1 hd, hd1, run_ok env _ d1 g2 hd1, ?_, ?_⟩
  · rw [iterGen_hist env (iterGen env s g1) g2, iterGen_hist env s g1, hh]
    simp
  · exact ⟨_, iterGen_hist env (iterGen env s g1) g2⟩

/-- Witness for C7: one generation then two more on the concrete
instance. -/
theorem run_twice_accumulates_witness :
    ∃ d1 : ℤ,
      run cEnv cState 1 none none =
        (iterGen cEnv cState 1,
          Except.ok ((iterGen cEnv cState 1).gens_genotype_data)) ∧
      (iterGen cEnv cState 1).genotype_data = some d1 ∧
      run cEnv (iterGen cEnv cState 1) 2 none none =
        (iterGen cEnv (iterGen cEnv cState 1) 2,
          Except.ok ((iterGen cEnv (iterGen cEnv cState 1) 2).gens_genotype_data)) ∧
      (iterGen cEnv (iterGen cEnv cState 1) 2).gens_genotype_data.length =
        1 + 2 ∧
      ∃ tail, (iterGen cEnv (iterGen cEnv cState 1) 2).gens_genotype_data =
        (iterGen cEnv cState 1).gens_genotype_data ++ tail :=
  run_twice_accumulates cEnv cState 5 1 2 rfl rfl

/-- C8: calc_generation appends the current genotype data to the history
before any validation or computation, so whatever happens later the
history has grown by exactly one snapshot entry; in particular a direct
call on an Uninitialized instance appends the unset value None to the
history and only then fails. -/
theorem append_before_validation (env : Env G) (s : PopGenState G) (i : ℤ)
    (byr bN : Option ℤ) :
    ((calc_generation env s i byr bN).1).gens_genotype_data =
      s.gens_genotype_data ++ [s.genotype_data] ∧
    (s.genotype_data = none →
      ((calc_generation env s i byr bN).2).isSome = true ∧
      ((calc_generation env s i byr bN).1).gens_genotype_data =
        s.gens_genotype_data ++ [none]) := by
  refine ⟨calc_generation_append env s i byr bN, fun hd => ?_⟩
  rw [calc_generation_unset env s hd i byr bN]
  exact ⟨rfl, rfl⟩

/-- Witness for C8 on the concrete uninitialized instance. -/
theorem append_before_validation_witness :
    ((calc_generation cEnv cStateU 0 none none).1).gens_genotype_data =
      [none] ∧
    ((calc_generation cEnv cStateU 0 none none).2).isSome = true :=
  ⟨(append_before_validation cEnv cStateU 0 none none).1,
   ((append_before_validation cEnv cStateU 0 none none).2 rfl).1⟩

/-- C9: when bottleneckYear is unset or lies outside 0..generations-1, the
bottleneck override branch is never taken in any generation and the run is
identical to a run with no bottleneck arguments. -/
theorem run_bottleneck_out_of_range (env : Env G) (s : PopGenState G)
    (g : ℕ) (byr bN : Option ℤ)
    (h : ∀ y : ℤ, byr = some y → y < 0 ∨ (g : ℤ) ≤ y) :
    run env s g byr bN = run env s g none none := by
  have hout : ∀ j : ℤ, 0 ≤ j → j < 0 + (g : ℤ) → byr ≠ some j := by
    intro j hj1 hj2 hbyr
    rcases h j hbyr with hneg | hge <;> omega
  obtain ⟨gr, cc, md, mr, gd, hist⟩ := s
  cases gd with
  | none => rfl
  | some c0 =>
    simp only [run]
    rw [runFrom_outside env byr bN g ⟨gr, cc, md, mr, some c0, hist⟩ 0 hout]

/-- Witness for C9: bottleneck year 5 with 3 generations behaves as no
bottleneck. -/
theorem run_bottleneck_out_of_range_witness :
    run cEnv cState 3 (some 5) (some 1) = run cEnv cState 3 none none :=
  run_bottleneck_out_of_range cEnv cState 3 (some 5) (some 1) (by
    intro y hy
    injection hy with h
    omega)

/-- C10: run(0) on a Ready instance performs no generation step: it
returns the existing history with no new entries, and the instance state,
including the current genotype data and all configuration parameters, is
exactly the state before the call. -/
theorem run_zero_noop (env : Env G) (s : PopGenState G) (d0 : G)
    (hd : s.genotype_data = some d0) (byr bN : Option ℤ) :
    run env s 0 byr bN = (s, Except.ok s.gens_genotype_data) := by
  obtain ⟨gr, cc, md, mr, gd, hist⟩ := s
  cases hd
  rfl

/-- Witness for C10 on the concrete Ready instance. -/
theorem run_zero_noop_witness :
    run cEnv cState 0 (some 3) (some 7) = (cState, Except.ok []) :=
  run_zero_noop cEnv cState 5 rfl (some 3) (some 7)

end PopGenSim
